import Mathlib

set_option maxRecDepth 100000

/-!
Verification of `codex-rs/login/src/login_with_chatgpt.py`: a shallow
embedding of the script's data model and operations, followed by theorems
settling the specification claims.

Modelling boundary:
* Pure Python functions become Lean functions on `Nat`/`Int`/`String`/lists.
* JSON documents (token-endpoint payloads, decoded JWT claim segments and
  the persisted `auth.json`) are modelled by the inductive `JVal`.
  Object lookup uses first-occurrence semantics; all inputs of interest
  (JSON produced by serializers) carry no duplicate keys.
* Network I/O (`urllib.request.urlopen`) is modelled by an oracle carried
  in `World`: each endpoint call is given its (already JSON-decoded)
  response, with `none` standing for a raised network/HTTP error.
* The file system holds at most the single file `$CODEX_HOME/auth.json`,
  modelled as `Option JVal` (its parsed content); `World.writeOk` models
  whether file writes succeed.
* Every observable action (token-endpoint POSTs, redemption POST, file
  writes) is recorded in an `Effect` trace so that ordering and absence
  properties can be stated.
-/

namespace CodexLogin

/-! ## JSON values -/

/-- JSON values, as produced by `json.loads`.  Arrays are omitted: no code
path of the script meaningfully consumes a JSON array (an array payload
makes the subsequent `.get` attribute access raise, which the claims never
exercise). -/
inductive JVal where
  | null : JVal
  | bool (b : Bool) : JVal
  | num (n : Int) : JVal
  | str (s : String) : JVal
  | obj (kvs : List (String × JVal)) : JVal

/-- Key lookup in an object's binding list (first occurrence). -/
def jLookup (kvs : List (String × JVal)) (k : String) : Option JVal :=
  match kvs with
  | [] => none
  | p :: rest => if p.1 = k then some p.2 else jLookup rest k

/-- Dictionary lookup `d.get(k)` (`none` when the key is absent or the
value is not an object). -/
def jGet (v : JVal) (k : String) : Option JVal :=
  match v with
  | .obj kvs => jLookup kvs k
  | _ => none

/-- `d.get(k, {})`. -/
def jGetD (v : JVal) (k : String) : JVal :=
  (jGet v k).getD (.obj [])

/-- Python truthiness of a JSON value. -/
def jTruthy : JVal → Bool
  | .null => false
  | .bool b => b
  | .num n => n != 0
  | .str s => s != ""
  | .obj kvs => !kvs.isEmpty

/-- Python truthiness of `d.get(k)` (with `None` for a missing key). -/
def optTruthy : Option JVal → Bool
  | none => false
  | some v => jTruthy v

/-- Python `x == True` (note `1 == True` holds in Python). -/
def pyEqTrue : Option JVal → Bool
  | some (.bool true) => true
  | some (.num 1) => true
  | _ => false

/-- Python `isinstance(x, int)` view of a value (`bool` is an `int` in
Python). -/
def pyInt? : Option JVal → Option Int
  | some (.num n) => some n
  | some (.bool b) => some (if b then 1 else 0)
  | _ => none

/-- The string value of an optional JSON value, when it is a string. -/
def jStrVal : Option JVal → Option String
  | some (.str s) => some s
  | _ => none

/-- Python `str()` as applied by `urllib.parse.urlencode` to dict values. -/
def pyStr : Option JVal → String
  | none => "None"
  | some .null => "None"
  | some (.bool true) => "True"
  | some (.bool false) => "False"
  | some (.num n) => toString n
  | some (.str s) => s
  | some (.obj _) => "dict"

/-- Dictionary entry assignment `d[k] = v`: replaces the first binding of
`k`, or appends the binding (Python dict insertion order). -/
def jSetKv (kvs : List (String × JVal)) (k : String) (v : JVal) :
    List (String × JVal) :=
  match kvs with
  | [] => [(k, v)]
  | p :: rest => if p.1 = k then (k, v) :: rest else p :: jSetKv rest k v

/-! ## Bytes, hex and SHA-256

`hashlib.sha256` is modelled by a full implementation of FIPS 180-4
SHA-256 over byte lists (bytes are `Nat`s below 256). -/

/-- UTF-8 encoding of a string, restricted to the ASCII fragment: every
string fed to `hashlib`/`base64` by the script (hex digits, base64url
alphabets, JSON claim payloads) is ASCII, where UTF-8 is the identity on
code points. -/
def strBytes (s : String) : List Nat := s.toList.map Char.toNat

/-- Decoding bytes back to characters (ASCII fragment, see `strBytes`). -/
def bytesToChars (bs : List Nat) : List Char := bs.map Char.ofNat

def hexAlphabet : List Char := "0123456789abcdef".toList

def hexDigitChar (n : Nat) : Char := hexAlphabet.getD (n % 16) '0'

/-- Lowercase hex encoding of a byte list (`bytes.hex()`, as produced by
`secrets.token_hex`). -/
def hexEncode : List Nat → List Char
  | [] => []
  | b :: rest => hexDigitChar (b / 16) :: hexDigitChar (b % 16) :: hexEncode rest

def M32 : Nat := 4294967296

/-- Right rotation of a 32-bit word. -/
def rotr32 (n x : Nat) : Nat := (x / 2 ^ n + x % 2 ^ n * 2 ^ (32 - n)) % M32

/-- Logical right shift. -/
def shr32 (n x : Nat) : Nat := x / 2 ^ n

/-- Bitwise complement within 32 bits. -/
def bnot32 (x : Nat) : Nat := Nat.xor 4294967295 x

def sha2Ch (e f g : Nat) : Nat := Nat.xor (Nat.land e f) (Nat.land (bnot32 e) g)

def sha2Maj (a b c : Nat) : Nat :=
  Nat.xor (Nat.xor (Nat.land a b) (Nat.land a c)) (Nat.land b c)

def sha2S0 (a : Nat) : Nat := Nat.xor (Nat.xor (rotr32 2 a) (rotr32 13 a)) (rotr32 22 a)

def sha2S1 (e : Nat) : Nat := Nat.xor (Nat.xor (rotr32 6 e) (rotr32 11 e)) (rotr32 25 e)

def sha2s0 (x : Nat) : Nat := Nat.xor (Nat.xor (rotr32 7 x) (rotr32 18 x)) (shr32 3 x)

def sha2s1 (x : Nat) : Nat := Nat.xor (Nat.xor (rotr32 17 x) (rotr32 19 x)) (shr32 10 x)

/-- The SHA-256 round constants. -/
def sha2K : List Nat :=
  [1116352408, 1899447441, 3049323471, 3921009573, 961987163, 1508970993,
   2453635748, 2870763221, 3624381080, 310598401, 607225278, 1426881987,
   1925078388, 2162078206, 2614888103, 3248222580, 3835390401, 4022224774,
   264347078, 604807628, 770255983, 1249150122, 1555081692, 1996064986,
   2554220882, 2821834349, 2952996808, 3210313671, 3336571891, 3584528711,
   113926993, 338241895, 666307205, 773529912, 1294757372, 1396182291,
   1695183700, 1986661051, 2177026350, 2456956037, 2730485921, 2820302411,
   3259730800, 3345764771, 3516065817, 3600352804, 4094571909, 275423344,
   430227734, 506948616, 659060556, 883997877, 958139571, 1322822218,
   1537002063, 1747873779, 1955562222, 2024104815, 2227730452, 2361852424,
   2428436474, 2756734187, 3204031479, 3329325298]

structure Sha256State where
  a : Nat
  b : Nat
  c : Nat
  d : Nat
  e : Nat
  f : Nat
  g : Nat
  h : Nat

def sha2Init : Sha256State :=
  ⟨1779033703, 3144134277, 1013904242, 2773480762,
   1359893119, 2600822924, 528734635, 1541459225⟩

/-- Big-endian bytes of a 32-bit word. -/
def be4 (x : Nat) : List Nat :=
  [x / 16777216 % 256, x / 65536 % 256, x / 256 % 256, x % 256]

/-- Big-endian bytes of a 64-bit length field. -/
def be8 (x : Nat) : List Nat :=
  [x / 2 ^ 56 % 256, x / 2 ^ 48 % 256, x / 2 ^ 40 % 256, x / 2 ^ 32 % 256,
   x / 2 ^ 24 % 256, x / 2 ^ 16 % 256, x / 2 ^ 8 % 256, x % 256]

/-- Group a 64-byte block into sixteen big-endian 32-bit words. -/
def toWords32 : List Nat → List Nat
  | a :: b :: c :: d :: rest => (a * 16777216 + b * 65536 + c * 256 + d) :: toWords32 rest
  | _ => []

/-- Message-schedule extension: append `steps` additional words. -/
def wExtend (w : List Nat) : Nat → List Nat
  | 0 => w
  | s + 1 =>
    let w' := wExtend w s
    w' ++ [(sha2s1 (w'.getD (w'.length - 2) 0) + w'.getD (w'.length - 7) 0 +
            sha2s0 (w'.getD (w'.length - 15) 0) + w'.getD (w'.length - 16) 0) % M32]

def sha2Round (s : Sha256State) (kw : Nat × Nat) : Sha256State :=
  let t1 := (s.h + sha2S1 s.e + sha2Ch s.e s.f s.g + kw.1 + kw.2) % M32
  let t2 := (sha2S0 s.a + sha2Maj s.a s.b s.c) % M32
  ⟨(t1 + t2) % M32, s.a, s.b, s.c, (s.d + t1) % M32, s.e, s.f, s.g⟩

def sha2Compress (st : Sha256State) (block : List Nat) : Sha256State :=
  let w := wExtend (toWords32 block) 48
  let r := (sha2K.zip w).foldl sha2Round st
  ⟨(st.a + r.a) % M32, (st.b + r.b) % M32, (st.c + r.c) % M32, (st.d + r.d) % M32,
   (st.e + r.e) % M32, (st.f + r.f) % M32, (st.g + r.g) % M32, (st.h + r.h) % M32⟩

/-- Split a list into 64-byte chunks (fuelled; the fuel is an upper bound
on the number of chunks). -/
def chunks64 : Nat → List Nat → List (List Nat)
  | 0, _ => []
  | _, [] => []
  | fuel + 1, l => l.take 64 :: chunks64 fuel (l.drop 64)

/-- SHA-256 padding: `0x80`, zeros to 56 mod 64, then the 64-bit bit
length. -/
def sha256Pad (msg : List Nat) : List Nat :=
  msg ++ 0x80 :: List.replicate ((64 - (msg.length + 9) % 64) % 64) 0 ++
    be8 (8 * msg.length)

/-- `hashlib.sha256(msg).digest()`. -/
def sha256 (msg : List Nat) : List Nat :=
  let fin := (chunks64 (sha256Pad msg).length (sha256Pad msg)).foldl sha2Compress sha2Init
  be4 fin.a ++ be4 fin.b ++ be4 fin.c ++ be4 fin.d ++
    be4 fin.e ++ be4 fin.f ++ be4 fin.g ++ be4 fin.h

/-! ## Base64 (URL-safe alphabet)

`base64.urlsafe_b64encode` / `urlsafe_b64decode`. -/

def b64UrlAlphabet : List Char :=
  "ABCDEFGHIJKLMNOPQRSTUVWXYZabcdefghijklmnopqrstuvwxyz0123456789-_".toList

def b64Char (n : Nat) : Char := b64UrlAlphabet.getD (n % 64) 'A'

/-- URL-safe base64 encoding of a byte list, with `=` padding. -/
def b64encode : List Nat → List Char
  | [] => []
  | [a] => [b64Char (a / 4), b64Char (a % 4 * 16), '=', '=']
  | [a, b] => [b64Char (a / 4), b64Char (a % 4 * 16 + b / 16), b64Char (b % 16 * 4), '=']
  | a :: b :: c :: rest =>
    b64Char (a / 4) :: b64Char (a % 4 * 16 + b / 16) ::
      b64Char (b % 16 * 4 + c / 64) :: b64Char (c % 64) :: b64encode rest

/-- `bytes.rstrip(b"=")`. -/
def rstripEq (l : List Char) : List Char :=
  (l.reverse.dropWhile (fun c => c == '=')).reverse

/-- Value of a character in the URL-safe base64 alphabet. -/
def b64Val (c : Char) : Option Nat :=
  let n := c.toNat
  if 65 ≤ n ∧ n ≤ 90 then some (n - 65)
  else if 97 ≤ n ∧ n ≤ 122 then some (n - 97 + 26)
  else if 48 ≤ n ∧ n ≤ 57 then some (n - 48 + 52)
  else if c = '-' then some 62
  else if c = '_' then some 63
  else none

/-- URL-safe base64 decoding of a correctly padded string (groups of four
characters, `=` padding only at the end); invalid input yields `none`,
modelling the `binascii.Error` raised by the decoder. -/
def b64decodeChars : List Char → Option (List Nat)
  | [] => some []
  | c1 :: c2 :: c3 :: c4 :: rest => do
    let v1 ← b64Val c1
    let v2 ← b64Val c2
    if c3 = '=' ∧ c4 = '=' ∧ rest = [] then
      some [v1 * 4 + v2 / 16]
    else do
      let v3 ← b64Val c3
      if c4 = '=' ∧ rest = [] then
        some [v1 * 4 + v2 / 16, v2 % 16 * 16 + v3 / 4]
      else do
        let v4 ← b64Val c4
        let tail ← b64decodeChars rest
        some ((v1 * 4 + v2 / 16) :: (v2 % 16 * 16 + v3 / 4) :: (v3 % 4 * 64 + v4) :: tail)
  | _ => none

/-! ## PKCE generation (`_generate_pkce`) -/

structure PkceCodes where
  code_verifier : String
  code_challenge : String

/-- The challenge string for a given verifier:
`urlsafe_b64encode(sha256(verifier)).rstrip(b"=")`. -/
def pkceChallengeOf (verifier : String) : String :=
  String.mk (rstripEq (b64encode (sha256 (strBytes verifier))))

/-- `_generate_pkce`, with the 64 random bytes drawn by
`secrets.token_hex(64)` passed explicitly: the verifier is their lowercase
hex encoding and the challenge is the stripped URL-safe base64 encoding of
the verifier's SHA-256 digest. -/
def _generate_pkce (randomBytes : List Nat) : PkceCodes :=
  let code_verifier := String.mk (hexEncode randomBytes)
  ⟨code_verifier, pkceChallengeOf code_verifier⟩

/-! ## String helpers (`str.split`, `str.rstrip`) -/

/-- `str.split(sep)` for a one-character separator, on character lists. -/
def splitCharList (c : Char) : List Char → List (List Char)
  | [] => [[]]
  | x :: xs =>
    let r := splitCharList c xs
    if x = c then [] :: r
    else
      match r with
      | [] => [[x]]
      | h :: t => (x :: h) :: t

/-- Python `s.split(".")`. -/
def pySplitDot (s : String) : List String :=
  (splitCharList '.' s.toList).map String.mk

/-- Python `s.rstrip("Z")` (strips every trailing `Z`). -/
def rstripZ (s : String) : String :=
  String.mk ((s.toList.reverse.dropWhile (fun c => c == 'Z')).reverse)

/-! ## JSON parsing (`json.loads`)

A recursive-descent JSON reader over character lists, fuelled for
termination.  Numbers are restricted to (signed) integers and string
escapes to the single-character ones: every JSON document the script
produces or consumes in the claims falls in this fragment. -/

def isWsChar (c : Char) : Bool := c == ' ' || c == '\n' || c == '\r' || c == '\t'

def skipWs (cs : List Char) : List Char := cs.dropWhile isWsChar

def jsonEscChar (c : Char) : Option Char :=
  if c = '"' ∨ c = '\\' ∨ c = '/' then some c
  else if c = 'n' then some (Char.ofNat 10)
  else if c = 't' then some (Char.ofNat 9)
  else if c = 'r' then some (Char.ofNat 13)
  else if c = 'b' then some (Char.ofNat 8)
  else if c = 'f' then some (Char.ofNat 12)
  else none

/-- Body of a JSON string (after the opening quote). -/
def jsonStrChars : List Char → Option (List Char × List Char)
  | [] => none
  | '"' :: r => some ([], r)
  | '\\' :: e :: r =>
    match jsonEscChar e with
    | some c => (jsonStrChars r).map (fun p => (c :: p.1, p.2))
    | none => none
  | c :: r => (jsonStrChars r).map (fun p => (c :: p.1, p.2))

def natOfDigits (cs : List Char) : Nat :=
  cs.foldl (fun a c => a * 10 + (c.toNat - 48)) 0

def jsonNatToken (cs : List Char) : Option (Nat × List Char) :=
  let ds := cs.takeWhile Char.isDigit
  if ds.isEmpty then none else some (natOfDigits ds, cs.dropWhile Char.isDigit)

mutual

def jsonVal : Nat → List Char → Option (JVal × List Char)
  | 0, _ => none
  | fu + 1, cs =>
    match skipWs cs with
    | 'n' :: 'u' :: 'l' :: 'l' :: r => some (.null, r)
    | 't' :: 'r' :: 'u' :: 'e' :: r => some (.bool true, r)
    | 'f' :: 'a' :: 'l' :: 's' :: 'e' :: r => some (.bool false, r)
    | '"' :: r =>
      match jsonStrChars r with
      | some (s, r2) => some (.str (String.mk s), r2)
      | none => none
    | '{' :: r =>
      match skipWs r with
      | '}' :: r2 => some (.obj [], r2)
      | r2 =>
        match jsonObjItems fu r2 with
        | some (kvs, r3) => some (.obj kvs, r3)
        | none => none
    | '-' :: r =>
      match jsonNatToken r with
      | some (n, r2) => some (.num (-(n : Int)), r2)
      | none => none
    | c :: r =>
      if c.isDigit then
        match jsonNatToken (c :: r) with
        | some (n, r2) => some (.num (n : Int), r2)
        | none => none
      else none
    | [] => none

def jsonObjItems : Nat → List Char → Option (List (String × JVal) × List Char)
  | 0, _ => none
  | fu + 1, cs =>
    match skipWs cs with
    | '"' :: r =>
      match jsonStrChars r with
      | none => none
      | some (k, r2) =>
        match skipWs r2 with
        | ':' :: r3 =>
          match jsonVal fu r3 with
          | none => none
          | some (v, r4) =>
            match skipWs r4 with
            | ',' :: r5 =>
              (jsonObjItems fu r5).map (fun p => ((String.mk k, v) :: p.1, p.2))
            | '}' :: r5 => some ([(String.mk k, v)], r5)
            | _ => none
        | _ => none
    | _ => none

end

/-- `json.loads` (on the integer/no-array fragment, see above). -/
def jsonParseChars (cs : List Char) : Option JVal :=
  match jsonVal (2 * cs.length + 4) cs with
  | some (v, r) => if (skipWs r).isEmpty then some v else none
  | none => none

/-! ## JWT claim extraction -/

/-- `_decode_jwt_segment`: restore base64 padding, decode, parse JSON;
any failure yields the empty mapping. -/
def _decode_jwt_segment (segment : String) : JVal :=
  let cs := segment.toList
  let padded := cs ++ List.replicate ((4 - cs.length % 4) % 4) '='
  match b64decodeChars padded with
  | none => .obj []
  | some bytes =>
    match jsonParseChars (bytesToChars bytes) with
    | some v => v
    | none => .obj []

/-- `parse_id_token_claims`: decode the middle segment of a three-segment
token; `none` for an empty or non-three-segment token. -/
def parse_id_token_claims (id_token : String) : Option JVal :=
  if id_token ≠ "" then
    let parts := pySplitDot id_token
    if parts.length = 3 then some (_decode_jwt_segment (parts.getD 1 "")) else none
  else none

/-- The namespaced claim key used by the auth service. -/
def authNS : String := "https://api.openai.com/auth"

/-- The namespaced auth claims of a dot-separated token, through the full
decode pipeline (`_decode_jwt_segment(token.split(".")[1]).get(authNS, {})`). -/
def authClaimsOfToken (tok : String) : JVal :=
  jGetD (_decode_jwt_segment ((pySplitDot tok).getD 1 "")) authNS

/-! ## URL encoding (`urllib.parse.urlencode`) -/

def urlSafeChar (c : Char) : Bool :=
  c.isAlpha || c.isDigit || c == '_' || c == '.' || c == '-' || c == '~'

def hexDigitUpper (n : Nat) : Char := "0123456789ABCDEF".toList.getD (n % 16) '0'

/-- `urllib.parse.quote_plus` (over the ASCII fragment, see `strBytes`). -/
def quotePlus (s : String) : String :=
  String.mk (s.toList.flatMap (fun c =>
    if urlSafeChar c then [c]
    else if c = ' ' then ['+']
    else ['%', hexDigitUpper (c.toNat / 16), hexDigitUpper (c.toNat % 16)]))

/-- `urllib.parse.urlencode` over a list of key/value pairs. -/
def urlencode (ps : List (String × String)) : String :=
  String.intercalate "&" (ps.map (fun p => quotePlus p.1 ++ "=" ++ quotePlus p.2))

/-! ## ISO timestamps (`datetime.fromisoformat`)

`datetime.fromisoformat` on the forms the flow meets:
`YYYY-MM-DD[.HH:MM:SS[±HH:MM]]`.  A string without a UTC offset parses to
a *naive* datetime; subtracting a naive datetime from the aware
`datetime.now(timezone.utc)` raises `TypeError` — the embedding keeps the
three outcomes apart. -/

inductive IsoParse where
  | malformed : IsoParse
  | naive (ts : Int) : IsoParse
  | aware (ts : Int) : IsoParse

/-- Days since 1970-01-01 of a civil date (proleptic Gregorian). -/
def daysFromCivil (y m d : Int) : Int :=
  let y2 := if m ≤ 2 then y - 1 else y
  let era := (if y2 ≥ 0 then y2 else y2 - 399) / 400
  let yoe := y2 - era * 400
  let mp := if m > 2 then m - 3 else m + 9
  let doy := (153 * mp + 2) / 5 + d - 1
  let doe := yoe * 365 + yoe / 4 - yoe / 100 + doy
  era * 146097 + doe - 719468

def twoDigits? (a b : Char) : Option Nat :=
  if a.isDigit && b.isDigit then some ((a.toNat - 48) * 10 + (b.toNat - 48)) else none

/-- `datetime.fromisoformat`, reduced to an epoch-seconds value plus the
naive/aware distinction. -/
def parseIsoPy (s : String) : IsoParse :=
  match s.toList with
  | y1 :: y2 :: y3 :: y4 :: '-' :: m1 :: m2 :: '-' :: d1 :: d2 :: rest =>
    match twoDigits? y1 y2, twoDigits? y3 y4, twoDigits? m1 m2, twoDigits? d1 d2 with
    | some yh, some yl, some mo, some dy =>
      let dateSec : Int := daysFromCivil (yh * 100 + yl) mo dy * 86400
      match rest with
      | [] => .naive dateSec
      | sep :: h1 :: h2 :: ':' :: n1 :: n2 :: ':' :: s1 :: s2 :: rest2 =>
        if sep = 'T' ∨ sep = ' ' then
          match twoDigits? h1 h2, twoDigits? n1 n2, twoDigits? s1 s2 with
          | some hh, some nn, some ss =>
            let ts : Int := dateSec + hh * 3600 + nn * 60 + ss
            match rest2 with
            | [] => .naive ts
            | sign :: o1 :: o2 :: ':' :: p1 :: p2 :: [] =>
              match twoDigits? o1 o2, twoDigits? p1 p2 with
              | some oh, some om =>
                let off : Int := oh * 3600 + om * 60
                if sign = '+' then .aware (ts - off)
                else if sign = '-' then .aware (ts + off)
                else .malformed
              | _, _ => .malformed
            | _ => .malformed
          | _, _, _ => .malformed
        else .malformed
      | _ => .malformed
    | _, _, _, _ => .malformed
  | _ => .malformed

/-! ## Effects, oracle and server state -/

/-- Observable actions of one login attempt, in program order.  The
`tokenRequest` constructor covers both token-endpoint POSTs of the
exchange; `refreshRequest`/`redeemRequest` are the side flow's POSTs;
`updateAuthFile` is the side flow's read-modify-write of `auth.json`;
`writeAuthFile` is `_write_auth_file`; `pkceGenerated` marks
`_generate_pkce` running during server construction. -/
inductive Effect where
  | tokenRequest (url : String) (body : List (String × String)) : Effect
  | refreshRequest : Effect
  | redeemRequest : Effect
  | updateAuthFile : Effect
  | writeAuthFile : Effect
  | pkceGenerated : Effect
deriving DecidableEq

/-- Ambient inputs of one request: clock readings, generated randomness
and the network/filesystem oracle.  A `none` response models a raised
network or HTTP error. -/
structure World where
  nowMs : Int
  nowSec : Int
  nowIsoBundle : String
  nowIsoRefresh : String
  today : String
  randomId : String
  codeResp : Option JVal
  exchangeResp : Option JVal
  refreshResp : Option JVal
  redeemResp : Option JVal
  writeOk : Bool

structure TokenData where
  id_token : String
  access_token : String
  refresh_token : String
deriving DecidableEq

structure AuthBundle where
  api_key : String
  token_data : TokenData
  last_refresh : String
deriving DecidableEq

def REQUIRED_PORT : Nat := 1455

def URL_BASE : String := "http://localhost:1455"

def DEFAULT_ISSUER : String := "https://auth.openai.com"

def DEFAULT_CLIENT_ID : String := "app_EMoamEEZ73f0CkXaXp7hrann"

def EXIT_CODE_WHEN_ADDRESS_ALREADY_IN_USE : Nat := 13

/-- The fields `_ApiKeyHTTPServer.__init__` stores on the server object. -/
structure ServerState where
  exit_code : Nat
  codex_home : String
  verbose : Bool
  issuer : String
  client_id : String
  redirect_uri : String
  pkce : PkceCodes
  state : String

/-- `_ApiKeyHTTPServer.__init__` after a successful bind, with the
randomness of `_generate_pkce` (64 bytes) and `secrets.token_hex(32)`
passed explicitly. -/
def serverInit (codex_home : String) (verbose : Bool) (pkceRandom : List Nat)
    (stateHex : String) : ServerState :=
  { exit_code := 1
    codex_home := codex_home
    verbose := verbose
    issuer := DEFAULT_ISSUER
    client_id := DEFAULT_CLIENT_ID
    redirect_uri := "http://localhost:1455/auth/callback"
    pkce := _generate_pkce pkceRandom
    state := stateHex }

/-- `_ApiKeyHTTPServer.auth_url`. -/
def auth_url (srv : ServerState) : String :=
  srv.issuer ++ "/oauth/authorize?" ++ urlencode
    [("response_type", "code"),
     ("client_id", srv.client_id),
     ("redirect_uri", srv.redirect_uri),
     ("scope", "openid profile email offline_access"),
     ("code_challenge", srv.pkce.code_challenge),
     ("code_challenge_method", "S256"),
     ("id_token_add_organizations", "true"),
     ("state", srv.state)]

/-! ## Credit-redemption side flow (`maybe_redeem_credits`) -/

/-- Result of the side flow: `escaped` records an exception propagating
out of `maybe_redeem_credits` (absorbed by its caller), `fs` the auth file
after the flow, `effects` its actions. -/
structure MRResult where
  escaped : Bool
  fs : Option JVal
  effects : List Effect

def optStrTruthy : Option String → Bool
  | none => false
  | some s => s != ""

/-- Whether evaluating the `token_expired` guard raises: when the decoded
id-token claims are truthy but not a dict (for instance a bare JSON
`true` payload), short-circuiting does not save `id_claims.get("exp")`,
which raises `AttributeError`; the exception escapes
`maybe_redeem_credits` (its caller absorbs and logs it) before any
refresh is attempted, leaving the persisted file untouched. -/
def redeemClaimsGetRaises (idClaims? : Option JVal) : Bool :=
  match idClaims? with
  | some (.obj _) => false
  | some c => jTruthy c
  | none => false

/-- The `token_expired` computation, on inputs where the guard does not
raise (see `redeemClaimsGetRaises`): `True` unless the claims are truthy
and carry an `int` `exp` claim that has not yet passed. -/
def redeemTokenExpired (idClaims? : Option JVal) (nowMs : Int) : Bool :=
  match idClaims? with
  | some c =>
    if jTruthy c then
      match pyInt? (jGet c "exp") with
      | some e => decide (nowMs ≥ e * 1000)
      | none => true
    else true
  | none => true

/-- The fresh `tokens` sub-object written by the refresh step: note it
sets `id_token`, `refresh_token` and a `last_refresh` key *inside* the
`tokens` object. -/
def refreshedTokens (tkvs : List (String × JVal)) (newId : String) (newRef : JVal)
    (nowIso : String) : List (String × JVal) :=
  jSetKv (jSetKv (jSetKv tkvs "id_token" (.str newId)) "refresh_token" newRef)
    "last_refresh" (.str nowIso)

/-- The refresh step's read-modify-write of `auth.json` (lines 493-514):
a missing or non-object file, a non-object `tokens` entry, or a failing
write raises inside the `try` and leaves the file unchanged (the
exception is printed and the flow continues). -/
def redeemUpdateAuthFile (fs : Option JVal) (newId : String) (newRef : JVal)
    (nowIso : String) (writeOk : Bool) : Option JVal × List Effect :=
  match fs with
  | some (.obj kvs) =>
    match jGet (.obj kvs) "tokens" with
    | some (.obj tkvs) =>
      if writeOk then
        (some (.obj (jSetKv kvs "tokens" (.obj (refreshedTokens tkvs newId newRef nowIso)))),
         [.updateAuthFile])
      else (fs, [])
    | none =>
      if writeOk then
        (some (.obj (jSetKv kvs "tokens" (.obj (refreshedTokens [] newId newRef nowIso)))),
         [.updateAuthFile])
      else (fs, [])
    | some _ => (fs, [])
  | _ => (fs, [])

/-- Eligibility gate and redemption call (the code after the
subscription-age check; never touches the file). -/
def redeemGate (authClaims : JVal) (fs : Option JVal) (effs : List Effect) : MRResult :=
  let completed := optTruthy (jGet authClaims "completed_platform_onboarding")
  let isOwner := optTruthy (jGet authClaims "is_org_owner")
  let needsSetup := !completed && isOwner
  let plan := jStrVal (jGet authClaims "chatgpt_plan_type")
  if needsSetup || !(plan == some "plus" || plan == some "pro") then ⟨false, fs, effs⟩
  else
    -- the redemption POST; its response is only printed
    ⟨false, fs, effs ++ [.redeemRequest]⟩

/-- Everything after the refresh step: the `if not id_token` guard, the
subscription-age check (whose naive-datetime subtraction raises a
`TypeError` that escapes `maybe_redeem_credits`), then `redeemGate`. -/
def redeemPhase2 (idToken? : Option String) (idClaims : JVal) (w : World)
    (fs : Option JVal) (effs : List Effect) : MRResult :=
  if !optStrTruthy idToken? then ⟨false, fs, effs⟩
  else
    let authClaims := jGetD idClaims authNS
    match jStrVal (jGet authClaims "chatgpt_subscription_active_start") with
    | some s =>
      match parseIsoPy (rstripZ s) with
      | .malformed => redeemGate authClaims fs effs
      | .naive _ => ⟨true, fs, effs⟩
      | .aware ts =>
        if w.nowSec - ts < 7 * 86400 then ⟨false, fs, effs⟩
        else redeemGate authClaims fs effs
    | none => redeemGate authClaims fs effs

/-- `maybe_redeem_credits`.  The `issuer`/`client_id` arguments only shape
request URLs/bodies, which the effect trace does not record. -/
def maybe_redeem_credits (issuer clientId : String) (idToken? : Option String)
    (refreshToken : String) (w : World) (fs : Option JVal) : MRResult :=
  let idClaims? := parse_id_token_claims (idToken?.getD "")
  if redeemClaimsGetRaises idClaims? then ⟨true, fs, []⟩
  else if redeemTokenExpired idClaims? w.nowMs then
    let effs := [Effect.refreshRequest]
    match w.refreshResp with
    | none => ⟨false, fs, effs⟩
    | some payload =>
      let newIdTok? := jGet payload "id_token"
      if optTruthy newIdTok? && (jStrVal newIdTok?).isNone then
        -- `parse_id_token_claims(new_id_token or "")` raises inside the
        -- `try` on a truthy non-string; the `except` returns early
        ⟨false, fs, effs⟩
      else
        let newIdStr := (jStrVal newIdTok?).getD ""
        let newIdClaims? := parse_id_token_claims newIdStr
        let newRefTok? := jGet payload "refresh_token"
        if !optTruthy newIdTok? || !optTruthy newRefTok? then ⟨false, fs, effs⟩
        else
          let upd := redeemUpdateAuthFile fs newIdStr (newRefTok?.getD .null)
            w.nowIsoRefresh w.writeOk
          let fs2 := upd.1
          let effs2 := effs ++ upd.2
          match newIdClaims? with
          | none => ⟨false, fs2, effs2⟩
          | some c =>
            if !jTruthy c then ⟨false, fs2, effs2⟩
            else redeemPhase2 (some newIdStr) c w fs2 effs2
  else
    redeemPhase2 idToken? (idClaims?.getD .null) w fs []

/-! ## Token exchange (`_ApiKeyHTTPHandler._exchange_code_for_api_key`) -/

/-- `payload[k]` expected to be a (token) string: a missing key raises
`KeyError`, a non-string value makes the subsequent `.split` raise; both
propagate as exchange failures. -/
def getTokStr (payload : JVal) (k : String) : Except String String :=
  match jGet payload k with
  | none => .error ("KeyError: " ++ k)
  | some (.str s) => .ok s
  | some _ => .error ("not a string: " ++ k)

/-- The `TokenData` construction from the code-exchange response. -/
def readTokenData (payload : JVal) : Except String TokenData :=
  match getTokStr payload "id_token" with
  | .error e => .error e
  | .ok idt =>
    match getTokStr payload "access_token" with
    | .error e => .error e
    | .ok acc =>
      match getTokStr payload "refresh_token" with
      | .error e => .error e
      | .ok rft => .ok ⟨idt, acc, rft⟩

/-- `needs_setup = not completed_platform_onboarding and is_org_owner`,
from the id-token's namespaced claims (Python `== True` comparisons). -/
def needsSetupOf (tokenClaims : JVal) : Bool :=
  !pyEqTrue (jGet tokenClaims "completed_platform_onboarding") &&
    pyEqTrue (jGet tokenClaims "is_org_owner")

def platformUrlOf (issuer : String) : String :=
  if issuer = "https://auth.openai.com" then "https://platform.openai.com"
  else "https://platform.api.openai.org"

/-- The success-URL query parameters. -/
def successQueryOf (idTok : String) (tokenClaims accessClaims : JVal)
    (issuer : String) : List (String × String) :=
  [("id_token", idTok),
   ("needs_setup", if needsSetupOf tokenClaims then "true" else "false"),
   ("org_id", pyStr (jGet tokenClaims "organization_id")),
   ("project_id", pyStr (jGet tokenClaims "project_id")),
   ("plan_type", pyStr (jGet accessClaims "chatgpt_plan_type")),
   ("platform_url", platformUrlOf issuer)]

def successUrlOf (idTok : String) (tokenClaims accessClaims : JVal)
    (issuer : String) : String :=
  URL_BASE ++ "/success?" ++ urlencode (successQueryOf idTok tokenClaims accessClaims issuer)

structure ExchangeResult where
  result : Except String (AuthBundle × String)
  fs : Option JVal
  effects : List Effect

/-- `_exchange_code_for_api_key`: code exchange, token-shape checks,
required-claim checks, token exchange, success-URL construction, then the
best-effort `maybe_redeem_credits` call, then the bundle. -/
def _exchange_code_for_api_key (srv : ServerState) (code : String) (w : World)
    (fs : Option JVal) : ExchangeResult :=
  let tokenEndpoint := srv.issuer ++ "/oauth/token"
  let body1 := [("grant_type", "authorization_code"), ("code", code),
                ("redirect_uri", srv.redirect_uri), ("client_id", srv.client_id),
                ("code_verifier", srv.pkce.code_verifier)]
  let effs1 := [Effect.tokenRequest tokenEndpoint body1]
  match w.codeResp with
  | none => ⟨.error "urlopen failed", fs, effs1⟩
  | some payload =>
    match readTokenData payload with
    | .error e => ⟨.error e, fs, effs1⟩
    | .ok td =>
      if (pySplitDot td.id_token).length ≠ 3 then ⟨.error "Invalid ID token", fs, effs1⟩
      else if (pySplitDot td.access_token).length ≠ 3 then
        ⟨.error "Invalid access token", fs, effs1⟩
      else
        let tokenClaims := authClaimsOfToken td.id_token
        let accessClaims := authClaimsOfToken td.access_token
        if !optTruthy (jGet tokenClaims "organization_id") then
          ⟨.error "Missing organization in id_token claims", fs, effs1⟩
        else if !optTruthy (jGet tokenClaims "project_id") then
          ⟨.error "Missing project in id_token claims", fs, effs1⟩
        else
          let body2 := [("grant_type", "urn:ietf:params:oauth:grant-type:token-exchange"),
                        ("client_id", srv.client_id),
                        ("requested_token", "openai-api-key"),
                        ("subject_token", td.id_token),
                        ("subject_token_type", "urn:ietf:params:oauth:token-type:id_token"),
                        ("name", "Codex CLI [auto-generated] (" ++ w.today ++ ") [" ++
                          w.randomId ++ "]")]
          let effs2 := effs1 ++ [Effect.tokenRequest tokenEndpoint body2]
          match w.exchangeResp with
          | none => ⟨.error "urlopen failed", fs, effs2⟩
          | some p2 =>
            match getTokStr p2 "access_token" with
            | .error e => ⟨.error e, fs, effs2⟩
            | .ok apiKey =>
              let successUrl := successUrlOf td.id_token tokenClaims accessClaims srv.issuer
              let mr := maybe_redeem_credits srv.issuer srv.client_id (some td.id_token)
                td.refresh_token w fs
              let bundle : AuthBundle := ⟨apiKey, td, w.nowIsoBundle⟩
              ⟨.ok (bundle, successUrl), mr.fs, effs2 ++ mr.effects⟩

/-! ## Credential persistence (`_write_auth_file`) -/

/-- The JSON document `_write_auth_file` serializes. -/
def authFileJson (auth : AuthBundle) : JVal :=
  .obj [("OPENAI_API_KEY", .str auth.api_key),
        ("tokens", .obj [("id_token", .str auth.token_data.id_token),
                         ("access_token", .str auth.token_data.access_token),
                         ("refresh_token", .str auth.token_data.refresh_token)]),
        ("last_refresh", .str auth.last_refresh)]

/-- `_write_auth_file`: returns whether the write succeeded and the file
afterwards (`writeOk` models directory-creation/open/write failures). -/
def _write_auth_file (auth : AuthBundle) (fs : Option JVal) (writeOk : Bool) :
    Bool × Option JVal :=
  if writeOk then (true, some (authFileJson auth)) else (false, fs)

/-! ## Request handling (`_ApiKeyHTTPHandler.do_GET`) -/

/-- The static confirmation page (content abbreviated: no claim concerns
the page body). -/
def LOGIN_SUCCESS_HTML : String :=
  "<!DOCTYPE html> Signed in to Codex CLI (static confirmation page)"

inductive Response where
  | html (status : Nat) (body : String) : Response
  | redirect (location : String) : Response
  | err (status : Nat) (message : String) : Response
deriving DecidableEq

/-- `parse_qs(query).get(k, [None])[0]`: first non-blank value of the key
(`parse_qs` drops blank values). -/
def parse_qs_get (params : List (String × String)) (k : String) : Option String :=
  ((params.filter (fun p => p.1 = k ∧ p.2 ≠ "")).head?).map (fun p => p.2)

/-- Outcome of handling one GET request: the HTTP response, the updated
server object, the auth file, the effect trace, and whether the handler
requested server shutdown (`request_shutdown`, also triggered by the
overridden `send_error`). -/
structure GetResult where
  response : Response
  srv : ServerState
  fs : Option JVal
  effects : List Effect
  shutdown : Bool

/-- `_ApiKeyHTTPHandler.do_GET`, for an already URL-parsed request. -/
def do_GET (srv : ServerState) (path : String) (params : List (String × String))
    (w : World) (fs : Option JVal) : GetResult :=
  if path = "/success" then
    ⟨.html 200 LOGIN_SUCCESS_HTML, srv, fs, [], true⟩
  else if path = "/auth/callback" then
    if parse_qs_get params "state" ≠ some srv.state then
      ⟨.err 400 "State parameter mismatch", srv, fs, [], true⟩
    else if !optStrTruthy (parse_qs_get params "code") then
      ⟨.err 400 "Missing authorization code", srv, fs, [], true⟩
    else
      let code := (parse_qs_get params "code").getD ""
      let ex := _exchange_code_for_api_key srv code w fs
      match ex.result with
      | .error e => ⟨.err 500 ("Token exchange failed: " ++ e), srv, ex.fs, ex.effects, true⟩
      | .ok (bundle, successUrl) =>
        let wr := _write_auth_file bundle ex.fs w.writeOk
        if wr.1 then
          ⟨.redirect successUrl, { srv with exit_code := 0 }, wr.2,
           ex.effects ++ [.writeAuthFile], false⟩
        else
          ⟨.err 500 "Unable to persist auth file", srv, wr.2, ex.effects, true⟩
  else
    ⟨.err 404 "Endpoint not supported", srv, fs, [], true⟩

/-! ## Server loop and `main` -/

/-- One queued GET request together with its ambient inputs. -/
structure Request where
  path : String
  params : List (String × String)
  world : World

/-- `serve_forever`: handle requests until a handler requests shutdown
(the `shutdown()` helper thread stops the loop). -/
def runServer (srv : ServerState) (fs : Option JVal) :
    List Request → ServerState × Option JVal × List Effect
  | [] => (srv, fs, [])
  | r :: rs =>
    let g := do_GET srv r.path r.params r.world fs
    if g.shutdown then (g.srv, g.fs, g.effects)
    else
      let rest := runServer g.srv g.fs rs
      (rest.1, rest.2.1, g.effects ++ rest.2.2)

/-- Outcome of binding `127.0.0.1:1455` in `_ApiKeyHTTPServer.__init__`
(the `super().__init__` call, which runs before any other field —
including the PKCE pair — is initialized). -/
inductive BindOutcome where
  | ok : BindOutcome
  | addrInUse : BindOutcome
  | otherOSError : BindOutcome

/-- `main`: the `CODEX_HOME` check, server construction with its
bind-error handling, then the serve loop; returns the process exit code
and the effect trace. -/
def mainRun (codexHome? : Option String) (bind : BindOutcome) (verbose : Bool)
    (pkceRandom : List Nat) (stateHex : String) (reqs : List Request)
    (fs0 : Option JVal) : Nat × List Effect :=
  match codexHome? with
  | none => (1, [])
  | some home =>
    if home = "" then (1, [])
    else
      match bind with
      | .addrInUse => (EXIT_CODE_WHEN_ADDRESS_ALREADY_IN_USE, [])
      | .otherOSError => (1, [])
      | .ok =>
        let srv := serverInit home verbose pkceRandom stateHex
        let fin := runServer srv fs0 reqs
        (fin.1.exit_code, Effect.pkceGenerated :: fin.2.2)

/-! ## Concrete inputs used by witnesses and counterexamples

The JWT payload segments below are URL-safe base64 encodings of JSON
claim documents (checked against the embedding's own decoder):
`cIdSeg` carries `exp` far in the future and namespaced auth claims with
organization/project ids, completed onboarding, org ownership and a
"plus" plan; `cIdSegB` is the same with onboarding *not* completed;
`cAccSeg` carries only a plan type; `e30` decodes to the empty object. -/

def cIdSeg : String :=
  "eyJleHAiOjk5OTk5OTk5OTk5LCJodHRwczovL2FwaS5vcGVuYWkuY29tL2F1dGgiOnsib3JnYW5pemF0aW9uX2lkIjoib3JnLTEiLCJwcm9qZWN0X2lkIjoicHJvai0xIiwiY29tcGxldGVkX3BsYXRmb3JtX29uYm9hcmRpbmciOnRydWUsImlzX29yZ19vd25lciI6dHJ1ZSwiY2hhdGdwdF9wbGFuX3R5cGUiOiJwbHVzIn19"

def cIdSegB : String :=
  "eyJleHAiOjk5OTk5OTk5OTk5LCJodHRwczovL2FwaS5vcGVuYWkuY29tL2F1dGgiOnsib3JnYW5pemF0aW9uX2lkIjoib3JnLTEiLCJwcm9qZWN0X2lkIjoicHJvai0xIiwiY29tcGxldGVkX3BsYXRmb3JtX29uYm9hcmRpbmciOmZhbHNlLCJpc19vcmdfb3duZXIiOnRydWUsImNoYXRncHRfcGxhbl90eXBlIjoicGx1cyJ9fQ"

def cAccSeg : String :=
  "eyJodHRwczovL2FwaS5vcGVuYWkuY29tL2F1dGgiOnsiY2hhdGdwdF9wbGFuX3R5cGUiOiJwbHVzIn19"

def cIdToken : String := "h." ++ cIdSeg ++ ".s"

def cIdTokenB : String := "h." ++ cIdSegB ++ ".s"

def cAccessToken : String := "h." ++ cAccSeg ++ ".s"

/-- An id token whose payload decodes to the empty claim object. -/
def cEmptyClaimsToken : String := "h.e30.s"

def cSrv : ServerState :=
  { exit_code := 1
    codex_home := "/home/user/.codex"
    verbose := false
    issuer := DEFAULT_ISSUER
    client_id := DEFAULT_CLIENT_ID
    redirect_uri := "http://localhost:1455/auth/callback"
    pkce := { code_verifier := "v", code_challenge := "c" }
    state := "st-1" }

/-- A world in which both token-endpoint calls succeed, the id token is
not yet expired, redemption succeeds and writes succeed. -/
def cWorld : World :=
  { nowMs := 0
    nowSec := 1700000000
    nowIsoBundle := "2025-06-01T00:00:00Z"
    nowIsoRefresh := "2025-06-01T00:00:01Z"
    today := "2025-06-01"
    randomId := "abcdef"
    codeResp := some (.obj [("id_token", .str cIdToken),
                            ("access_token", .str cAccessToken),
                            ("refresh_token", .str "rt-1")])
    exchangeResp := some (.obj [("access_token", .str "sk-test")])
    refreshResp := none
    redeemResp := some (.obj [("granted_chatgpt_subscriber_api_credits", .num 5)])
    writeOk := true }

/-- A previously persisted `auth.json`, as `_write_auth_file` lays it out. -/
def cOldAuthFile : JVal :=
  .obj [("OPENAI_API_KEY", .str "sk-old"),
        ("tokens", .obj [("id_token", .str "old-id"),
                         ("access_token", .str "old-acc"),
                         ("refresh_token", .str "old-rt")]),
        ("last_refresh", .str "2024-01-01T00:00:00Z")]

/-- A world whose refresh response carries a fresh id token and refresh
token. -/
def cRefreshWorld : World :=
  { cWorld with
    refreshResp := some (.obj [("id_token", .str cEmptyClaimsToken),
                               ("refresh_token", .str "new-rt")]) }

/-- The request of a valid callback for `cSrv`/`cWorld`. -/
def cCallbackReq : Request :=
  { path := "/auth/callback"
    params := [("state", "st-1"), ("code", "authcode")]
    world := cWorld }

/-! ## Helper lemmas -/

theorem hexEncode_length (bs : List Nat) : (hexEncode bs).length = 2 * bs.length := by
  induction bs with
  | nil => rfl
  | cons b r ih => simp [hexEncode, ih]; omega

theorem sha256_length (msg : List Nat) : (sha256 msg).length = 32 := by
  unfold sha256
  simp [be4]

theorem b64UrlAlphabet_no_pad : ∀ c ∈ b64UrlAlphabet, c ≠ '=' := by decide

theorem b64Char_ne_pad (n : Nat) : b64Char n ≠ '=' := by
  apply b64UrlAlphabet_no_pad
  have hlt : n % 64 < b64UrlAlphabet.length := by
    have h64 : b64UrlAlphabet.length = 64 := by decide
    omega
  unfold b64Char
  rw [List.getD_eq_getElem _ _ hlt]
  exact List.getElem_mem hlt

theorem b64Char_beq_pad (n : Nat) : (b64Char n == '=') = false := by
  exact beq_eq_false_iff_ne.mpr (b64Char_ne_pad n)

theorem rstripEq_append (l1 l2 : List Char) (h : rstripEq l2 ≠ []) :
    rstripEq (l1 ++ l2) = l1 ++ rstripEq l2 := by
  unfold rstripEq at *
  have h2 : ((l2.reverse.dropWhile (fun c => c == '=')).isEmpty) = false := by
    rcases hd : l2.reverse.dropWhile (fun c => c == '=') with _ | ⟨x, xs⟩
    · exact absurd (by simp [hd]) h
    · simp
  rw [List.reverse_append, List.dropWhile_append, h2]
  simp

theorem rstripEq_b64_length : ∀ (k : Nat) (bs : List Nat), bs.length = 3 * k + 2 →
    (rstripEq (b64encode bs)).length = 4 * k + 3 := by
  intro k
  induction k with
  | zero =>
    intro bs h
    match bs, h with
    | [a, b], _ =>
      simp [b64encode, rstripEq, List.dropWhile, b64Char_beq_pad]
  | succ k ih =>
    intro bs h
    match bs, h with
    | a :: b :: c :: rest, h =>
      have hr : rest.length = 3 * k + 2 := by
        simp only [List.length_cons] at h
        omega
      have hlen := ih rest hr
      have hne : rstripEq (b64encode rest) ≠ [] := by
        intro hc
        rw [hc] at hlen
        simp at hlen
      have henc : b64encode (a :: b :: c :: rest) =
          [b64Char (a / 4), b64Char (a % 4 * 16 + b / 16),
           b64Char (b % 16 * 4 + c / 64), b64Char (c % 64)] ++ b64encode rest := by
        cases rest <;> rfl
      rw [henc, rstripEq_append _ _ hne]
      simp [hlen]
      omega

/-- `jGet` succeeds only on a truthy (non-empty) object. -/
theorem jTruthy_of_jGet_some {v : JVal} {k : String} {x : JVal}
    (h : jGet v k = some x) : jTruthy v = true := by
  cases v with
  | obj kvs =>
    cases kvs with
    | nil => simp [jGet, jLookup] at h
    | cons p rest => simp [jTruthy]
  | null => simp [jGet] at h
  | bool b => simp [jGet] at h
  | num n => simp [jGet] at h
  | str s => simp [jGet] at h

theorem jLookup_jSetKv_self (kvs : List (String × JVal)) (k : String) (v : JVal) :
    jLookup (jSetKv kvs k v) k = some v := by
  induction kvs with
  | nil => simp [jSetKv, jLookup]
  | cons p rest ih =>
    simp only [jSetKv]
    by_cases hp : p.1 = k
    · rw [if_pos hp]
      simp [jLookup]
    · rw [if_neg hp]
      simp only [jLookup]
      rw [if_neg hp]
      exact ih

theorem jLookup_jSetKv_ne (kvs : List (String × JVal)) (k : String) (v : JVal)
    (k2 : String) (h : k2 ≠ k) : jLookup (jSetKv kvs k v) k2 = jLookup kvs k2 := by
  induction kvs with
  | nil =>
    simp only [jSetKv, jLookup]
    rw [if_neg (Ne.symm h)]
  | cons p rest ih =>
    simp only [jSetKv]
    by_cases hp : p.1 = k
    · rw [if_pos hp]
      simp only [jLookup]
      rw [if_neg (Ne.symm h), if_neg (by rw [hp]; exact Ne.symm h)]
    · rw [if_neg hp]
      simp only [jLookup]
      by_cases hp2 : p.1 = k2
      · rw [if_pos hp2, if_pos hp2]
      · rw [if_neg hp2, if_neg hp2]
        exact ih

theorem optTruthy_some (v : JVal) : optTruthy (some v) = jTruthy v := rfl

theorem jTruthy_str (s : String) : jTruthy (.str s) = (s != "") := rfl

theorem jStrVal_some_str (s : String) : jStrVal (some (.str s)) = some s := rfl

theorem redeemGate_fs (authClaims : JVal) (fs : Option JVal) (effs : List Effect) :
    (redeemGate authClaims fs effs).fs = fs := by
  simp only [redeemGate]
  split <;> rfl

theorem redeemPhase2_fs (idToken? : Option String) (idClaims : JVal) (w : World)
    (fs : Option JVal) (effs : List Effect) :
    (redeemPhase2 idToken? idClaims w fs effs).fs = fs := by
  simp only [redeemPhase2]
  repeat' split
  all_goals first | rfl | apply redeemGate_fs

/-! ## Claim C1 -/

/-- C1: on a `GET /auth/callback` whose `state` query parameter differs
from the attempt's generated `csrfState`, the handler answers with an
error response (400, "State parameter mismatch") and the flow never
reaches token exchange: no token-endpoint request is constructed or sent
(the effect trace is empty), and the server object and auth file are
untouched. -/
theorem C1_state_mismatch_rejected (srv : ServerState) (params : List (String × String))
    (w : World) (fs : Option JVal)
    (h : parse_qs_get params "state" ≠ some srv.state) :
    (do_GET srv "/auth/callback" params w fs).response = .err 400 "State parameter mismatch" ∧
    (do_GET srv "/auth/callback" params w fs).effects = [] ∧
    (∀ url body, Effect.tokenRequest url body ∉ (do_GET srv "/auth/callback" params w fs).effects) ∧
    (do_GET srv "/auth/callback" params w fs).srv = srv ∧
    (do_GET srv "/auth/callback" params w fs).fs = fs := by
  have hp : ("/auth/callback" : String) ≠ "/success" := by decide
  unfold do_GET
  simp [hp, h]

theorem C1_state_mismatch_rejected_witness :
    parse_qs_get [("state", "tampered"), ("code", "authcode")] "state" ≠ some cSrv.state ∧
    ((do_GET cSrv "/auth/callback" [("state", "tampered"), ("code", "authcode")] cWorld none).response
        = .err 400 "State parameter mismatch" ∧
      (do_GET cSrv "/auth/callback" [("state", "tampered"), ("code", "authcode")] cWorld none).effects = [] ∧
      (∀ url body, Effect.tokenRequest url body ∉
        (do_GET cSrv "/auth/callback" [("state", "tampered"), ("code", "authcode")] cWorld none).effects) ∧
      (do_GET cSrv "/auth/callback" [("state", "tampered"), ("code", "authcode")] cWorld none).srv = cSrv ∧
      (do_GET cSrv "/auth/callback" [("state", "tampered"), ("code", "authcode")] cWorld none).fs = none) :=
  ⟨by decide, C1_state_mismatch_rejected cSrv _ cWorld none (by decide)⟩

/-! ## Claim C2 -/

/-- C2: for every generated PKCE pair (over the 64 random bytes drawn by
`secrets.token_hex(64)`), the challenge equals the URL-safe base64
encoding, padding stripped, of the SHA-256 hash of the verifier — and the
challenge is never equal to the verifier (their lengths are 43 and 128). -/
theorem C2_pkce_challenge (randomBytes : List Nat) (h : randomBytes.length = 64) :
    (_generate_pkce randomBytes).code_challenge =
      String.mk (rstripEq (b64encode (sha256 (strBytes (_generate_pkce randomBytes).code_verifier)))) ∧
    (_generate_pkce randomBytes).code_challenge ≠ (_generate_pkce randomBytes).code_verifier := by
  refine ⟨rfl, ?_⟩
  intro hEq
  have hchal : (_generate_pkce randomBytes).code_challenge.length = 43 := by
    show (String.mk (rstripEq (b64encode (sha256 (strBytes (String.mk (hexEncode randomBytes))))))).length = 43
    have h32 : (sha256 (strBytes (String.mk (hexEncode randomBytes)))).length = 3 * 10 + 2 := by
      rw [sha256_length]
    have := rstripEq_b64_length 10 _ h32
    simpa using this
  have hver : (_generate_pkce randomBytes).code_verifier.length = 128 := by
    show (String.mk (hexEncode randomBytes)).length = 128
    show (hexEncode randomBytes).length = 128
    rw [hexEncode_length, h]
  rw [hEq, hver] at hchal
  exact absurd hchal (by decide)

theorem C2_pkce_challenge_witness :
    (List.replicate 64 (0 : Nat)).length = 64 ∧
    ((_generate_pkce (List.replicate 64 0)).code_challenge =
      String.mk (rstripEq (b64encode (sha256 (strBytes (_generate_pkce (List.replicate 64 0)).code_verifier)))) ∧
    (_generate_pkce (List.replicate 64 0)).code_challenge ≠
      (_generate_pkce (List.replicate 64 0)).code_verifier) :=
  ⟨by simp, C2_pkce_challenge (List.replicate 64 0) (by simp)⟩

/-! ## Claim C3 -/

/-- C3, counterexample: the claim asserts that a `GET` on an unknown path
"does not alter the attempt's lifecycle: the listener keeps serving".  In
the code, the overridden `send_error` always calls `request_shutdown`, so
a `GET /nope` is answered 404 *and* shuts the server down. -/
theorem C3_counterexample :
    (do_GET cSrv "/nope" [] cWorld none).response = .err 404 "Endpoint not supported" ∧
    (do_GET cSrv "/nope" [] cWorld none).shutdown = true :=
  ⟨rfl, rfl⟩

/-- C3, amended: a `GET` on a path other than `/auth/callback` and
`/success` is answered 404 with the exit code, server fields and auth
file unchanged and no network effects — but the handler *does* request
server shutdown (the overridden `send_error` stops the listener, which
then exits with the previously recorded exit code). -/
theorem C3_other_path_404 (srv : ServerState) (path : String)
    (params : List (String × String)) (w : World) (fs : Option JVal)
    (h1 : path ≠ "/success") (h2 : path ≠ "/auth/callback") :
    do_GET srv path params w fs =
      ⟨.err 404 "Endpoint not supported", srv, fs, [], true⟩ := by
  unfold do_GET
  rw [if_neg h1, if_neg h2]

theorem C3_other_path_404_witness :
    (("/nope" : String) ≠ "/success") ∧ (("/nope" : String) ≠ "/auth/callback") ∧
    do_GET cSrv "/nope" [("state", "st-1")] cWorld none =
      ⟨.err 404 "Endpoint not supported", cSrv, none, [], true⟩ :=
  ⟨by decide, by decide,
    C3_other_path_404 cSrv "/nope" [("state", "st-1")] cWorld none (by decide) (by decide)⟩

/-! ## Claim C8 -/

/-- C8: when binding the fixed local port fails because the address is
already in use, the process exits with the reserved exit code 13, without
ever generating PKCE values and without contacting the identity provider
(the effect trace is empty); any other bind error exits with the generic
code 1. -/
theorem C8_bind_failure_exit_codes (home : String) (h : home ≠ "")
    (verbose : Bool) (pkceRandom : List Nat) (stateHex : String)
    (reqs : List Request) (fs0 : Option JVal) :
    mainRun (some home) .addrInUse verbose pkceRandom stateHex reqs fs0 =
      (EXIT_CODE_WHEN_ADDRESS_ALREADY_IN_USE, []) ∧
    EXIT_CODE_WHEN_ADDRESS_ALREADY_IN_USE = 13 ∧
    Effect.pkceGenerated ∉ (mainRun (some home) .addrInUse verbose pkceRandom stateHex reqs fs0).2 ∧
    (∀ url body, Effect.tokenRequest url body ∉
      (mainRun (some home) .addrInUse verbose pkceRandom stateHex reqs fs0).2) ∧
    mainRun (some home) .otherOSError verbose pkceRandom stateHex reqs fs0 = (1, []) := by
  simp [mainRun, h, EXIT_CODE_WHEN_ADDRESS_ALREADY_IN_USE]

theorem C8_bind_failure_exit_codes_witness :
    (("/home/user/.codex" : String) ≠ "") ∧
    (mainRun (some "/home/user/.codex") .addrInUse false [] "st-1" [] none =
        (EXIT_CODE_WHEN_ADDRESS_ALREADY_IN_USE, []) ∧
      EXIT_CODE_WHEN_ADDRESS_ALREADY_IN_USE = 13 ∧
      Effect.pkceGenerated ∉ (mainRun (some "/home/user/.codex") .addrInUse false [] "st-1" [] none).2 ∧
      (∀ url body, Effect.tokenRequest url body ∉
        (mainRun (some "/home/user/.codex") .addrInUse false [] "st-1" [] none).2) ∧
      mainRun (some "/home/user/.codex") .otherOSError false [] "st-1" [] none = (1, [])) :=
  ⟨by decide, C8_bind_failure_exit_codes "/home/user/.codex" (by decide) false [] "st-1" [] none⟩

/-! ## Claim C6 -/

/-- C6: whenever the identity token's `exp` claim is present as an
integer and its expiry has not yet passed, `maybe_redeem_credits` leaves
the persisted `auth.json` unchanged (the refresh step is skipped, and no
later step of the side flow touches the file). -/
theorem C6_not_expired_no_mutation (issuer clientId : String)
    (idToken? : Option String) (refreshToken : String) (w : World)
    (fs : Option JVal) (e : Int)
    (h1 : pyInt? (jGet ((parse_id_token_claims (idToken?.getD "")).getD .null) "exp") = some e)
    (h2 : w.nowMs < e * 1000) :
    (maybe_redeem_credits issuer clientId idToken? refreshToken w fs).fs = fs := by
  have hexp : redeemTokenExpired (parse_id_token_claims (idToken?.getD "")) w.nowMs = false := by
    cases hp : parse_id_token_claims (idToken?.getD "") with
    | none =>
      rw [hp] at h1
      simp [jGet, pyInt?] at h1
    | some c =>
      rw [hp] at h1
      simp only [Option.getD_some] at h1
      have ht : jTruthy c = true := by
        cases hg : jGet c "exp" with
        | none => rw [hg] at h1; simp [pyInt?] at h1
        | some x => exact jTruthy_of_jGet_some hg
      simp only [redeemTokenExpired, ht, if_true, h1]
      simp only [decide_eq_false_iff_not, not_le]
      omega
  have hguard : redeemClaimsGetRaises (parse_id_token_claims (idToken?.getD "")) = false := by
    cases hp : parse_id_token_claims (idToken?.getD "") with
    | none => rfl
    | some c =>
      rw [hp] at h1
      simp only [Option.getD_some] at h1
      cases c with
      | obj kvs => rfl
      | null => simp [jGet, pyInt?] at h1
      | bool b => simp [jGet, pyInt?] at h1
      | num n => simp [jGet, pyInt?] at h1
      | str s => simp [jGet, pyInt?] at h1
  simp only [maybe_redeem_credits, hguard, Bool.false_eq_true, if_false, hexp]
  exact redeemPhase2_fs _ _ _ _ _

theorem C6_not_expired_no_mutation_witness :
    pyInt? (jGet ((parse_id_token_claims ((some cIdToken).getD "")).getD .null) "exp")
        = some 99999999999 ∧
    cWorld.nowMs < 99999999999 * 1000 ∧
    (maybe_redeem_credits DEFAULT_ISSUER DEFAULT_CLIENT_ID (some cIdToken) "rt-1" cWorld
      (some cOldAuthFile)).fs = some cOldAuthFile :=
  ⟨by rfl, by decide,
   C6_not_expired_no_mutation DEFAULT_ISSUER DEFAULT_CLIENT_ID (some cIdToken) "rt-1"
     cWorld (some cOldAuthFile) 99999999999 (by rfl) (by decide)⟩

/-- When the decoded id-token claims are truthy but not a dict, the
expiry guard raises and the whole side flow aborts at once: the escaping
exception leaves the persisted file untouched and performs no network or
file action (no refresh is ever attempted). -/
theorem maybe_redeem_raises_no_mutation (issuer clientId : String)
    (idToken? : Option String) (refreshToken : String) (w : World) (fs : Option JVal)
    (h : redeemClaimsGetRaises (parse_id_token_claims (idToken?.getD "")) = true) :
    maybe_redeem_credits issuer clientId idToken? refreshToken w fs = ⟨true, fs, []⟩ := by
  simp only [maybe_redeem_credits, h, if_true]

/-! ## Claim C7 -/

/-- The side flow's refresh step applied to `cOldAuthFile` with an
expired (unparseable) current id token and a successful refresh
response. -/
def c7run : MRResult :=
  maybe_redeem_credits DEFAULT_ISSUER DEFAULT_CLIENT_ID (some "expired-token") "old-rt"
    cRefreshWorld (some cOldAuthFile)

/-- C7, counterexample: the claim says the persisted file's `lastRefresh`
timestamp field is replaced with a new value.  In the persisted layout
(`_write_auth_file`) that field is the top-level `last_refresh`; the
refresh step instead writes a `last_refresh` key *inside* the `tokens`
object and leaves the top-level field untouched.  Concretely: the refresh
succeeds (id/refresh tokens are replaced, the new timestamp appears under
`tokens`), yet the file's `last_refresh` field still holds the old
value. -/
theorem C7_counterexample :
    jStrVal (jGet (jGetD (c7run.fs.getD .null) "tokens") "id_token") = some cEmptyClaimsToken ∧
    jStrVal (jGet (jGetD (c7run.fs.getD .null) "tokens") "refresh_token") = some "new-rt" ∧
    jStrVal (jGet (jGetD (c7run.fs.getD .null) "tokens") "last_refresh")
      = some cRefreshWorld.nowIsoRefresh ∧
    jStrVal (jGet (c7run.fs.getD .null) "last_refresh") = some "2024-01-01T00:00:00Z" ∧
    cRefreshWorld.nowIsoRefresh = "2025-06-01T00:00:01Z" ∧
    ("2024-01-01T00:00:00Z" : String) ≠ "2025-06-01T00:00:01Z" :=
  ⟨rfl, rfl, rfl, rfl, rfl, by decide⟩

/-- C7, amended: when the best-effort refresh step actually runs and
succeeds — the expiry guard evaluates without raising
(`redeemClaimsGetRaises` false), the token counts as expired, and the
refresh response contains both a new id token and a new refresh token —
and the persisted file is an object with a `tokens` object, the file is
updated in place: inside `tokens`, `id_token` and `refresh_token` are
replaced and a `last_refresh` timestamp is written, while the stored
`access_token`, the API key (`OPENAI_API_KEY`) and the file's top-level
`last_refresh` field all remain unchanged. -/
theorem C7_refresh_updates_file (issuer clientId : String) (idToken? : Option String)
    (refreshToken : String) (w : World) (fs : Option JVal)
    (kvs tkvs : List (String × JVal)) (payload : JVal) (newId : String)
    (hg : redeemClaimsGetRaises (parse_id_token_claims (idToken?.getD "")) = false)
    (hx : redeemTokenExpired (parse_id_token_claims (idToken?.getD "")) w.nowMs = true)
    (hr : w.refreshResp = some payload)
    (hid : jStrVal (jGet payload "id_token") = some newId)
    (hne : newId ≠ "")
    (hrt : optTruthy (jGet payload "refresh_token") = true)
    (hfs : fs = some (.obj kvs))
    (htk : jGet (.obj kvs) "tokens" = some (.obj tkvs))
    (hw : w.writeOk = true) :
    jStrVal (jGet (jGetD (((maybe_redeem_credits issuer clientId idToken? refreshToken w fs).fs).getD .null) "tokens") "id_token") = some newId ∧
    jGet (jGetD (((maybe_redeem_credits issuer clientId idToken? refreshToken w fs).fs).getD .null) "tokens") "refresh_token" = jGet payload "refresh_token" ∧
    jStrVal (jGet (jGetD (((maybe_redeem_credits issuer clientId idToken? refreshToken w fs).fs).getD .null) "tokens") "last_refresh") = some w.nowIsoRefresh ∧
    jGet (jGetD (((maybe_redeem_credits issuer clientId idToken? refreshToken w fs).fs).getD .null) "tokens") "access_token" = jGet (.obj tkvs) "access_token" ∧
    jGet (((maybe_redeem_credits issuer clientId idToken? refreshToken w fs).fs).getD .null) "OPENAI_API_KEY" = jGet (.obj kvs) "OPENAI_API_KEY" ∧
    jGet (((maybe_redeem_credits issuer clientId idToken? refreshToken w fs).fs).getD .null) "last_refresh" = jGet (.obj kvs) "last_refresh" := by
  have hidv : jGet payload "id_token" = some (.str newId) := by
    cases hg : jGet payload "id_token" with
    | none => rw [hg] at hid; simp [jStrVal] at hid
    | some v =>
      cases v <;> rw [hg] at hid <;> simp [jStrVal] at hid
      rw [hid]
  obtain ⟨refv, hrefv⟩ : ∃ x, jGet payload "refresh_token" = some x := by
    cases hg : jGet payload "refresh_token" with
    | none => rw [hg] at hrt; simp [optTruthy] at hrt
    | some x => exact ⟨x, rfl⟩
  have hrt2 : jTruthy refv = true := by
    rw [hrefv] at hrt
    simpa [optTruthy] using hrt
  have hnet : (newId != "") = true := by simp [hne]
  have hfs2 : (maybe_redeem_credits issuer clientId idToken? refreshToken w fs).fs =
      some (.obj (jSetKv kvs "tokens"
        (.obj (refreshedTokens tkvs newId refv w.nowIsoRefresh)))) := by
    simp only [maybe_redeem_credits, hg, Bool.false_eq_true, if_false, hx, if_true, hr,
      hfs, hidv, hrefv]
    simp only [optTruthy_some, jTruthy_str, jStrVal_some_str, Option.isNone_some,
      Bool.and_false, Bool.false_eq_true, if_false, Option.getD_some, hnet, hrt2,
      Bool.not_true, Bool.or_self, redeemUpdateAuthFile, htk, hw, if_true]
    cases hpc : parse_id_token_claims newId with
    | none => rfl
    | some c =>
      by_cases htc : jTruthy c = true
      · simp only [htc, Bool.not_true, Bool.false_eq_true, if_false]
        exact redeemPhase2_fs _ _ _ _ _
      · simp only [Bool.not_eq_true] at htc
        simp only [htc, Bool.not_false, if_true]
  refine ⟨?_, ?_, ?_, ?_, ?_, ?_⟩
  · simp only [hfs2, Option.getD_some, jGetD, jGet, jLookup_jSetKv_self, refreshedTokens]
    rw [jLookup_jSetKv_ne _ _ _ _ (by decide), jLookup_jSetKv_ne _ _ _ _ (by decide),
      jLookup_jSetKv_self]
    rfl
  · rw [hrefv]
    simp only [hfs2, Option.getD_some, jGetD, jGet, jLookup_jSetKv_self, refreshedTokens]
    rw [jLookup_jSetKv_ne _ _ _ _ (by decide), jLookup_jSetKv_self]
  · simp only [hfs2, Option.getD_some, jGetD, jGet, jLookup_jSetKv_self, refreshedTokens]
    rfl
  · simp only [hfs2, Option.getD_some, jGetD, jGet, jLookup_jSetKv_self, refreshedTokens]
    rw [jLookup_jSetKv_ne _ _ _ _ (by decide), jLookup_jSetKv_ne _ _ _ _ (by decide),
      jLookup_jSetKv_ne _ _ _ _ (by decide)]
  · simp only [hfs2, Option.getD_some, jGet]
    rw [jLookup_jSetKv_ne _ _ _ _ (by decide)]
  · simp only [hfs2, Option.getD_some, jGet]
    rw [jLookup_jSetKv_ne _ _ _ _ (by decide)]

theorem C7_refresh_updates_file_witness :
    redeemClaimsGetRaises (parse_id_token_claims ((some "expired-token").getD "")) = false ∧
    redeemTokenExpired (parse_id_token_claims ((some "expired-token").getD ""))
        cRefreshWorld.nowMs = true ∧
    cRefreshWorld.writeOk = true ∧
    jStrVal (jGet (jGetD (((maybe_redeem_credits DEFAULT_ISSUER DEFAULT_CLIENT_ID
        (some "expired-token") "old-rt" cRefreshWorld (some cOldAuthFile)).fs).getD .null)
        "tokens") "id_token") = some cEmptyClaimsToken :=
  ⟨rfl, rfl, rfl,
    (C7_refresh_updates_file DEFAULT_ISSUER DEFAULT_CLIENT_ID (some "expired-token")
      "old-rt" cRefreshWorld (some cOldAuthFile)
      [("OPENAI_API_KEY", .str "sk-old"),
       ("tokens", .obj [("id_token", .str "old-id"), ("access_token", .str "old-acc"),
                        ("refresh_token", .str "old-rt")]),
       ("last_refresh", .str "2024-01-01T00:00:00Z")]
      [("id_token", .str "old-id"), ("access_token", .str "old-acc"),
       ("refresh_token", .str "old-rt")]
      (.obj [("id_token", .str cEmptyClaimsToken), ("refresh_token", .str "new-rt")])
      cEmptyClaimsToken
      rfl rfl rfl rfl (by decide) rfl rfl rfl rfl).1⟩

/-! ## Claim C4 -/

theorem getTokStr_ok (payload : JVal) (k : String) (s : String)
    (h : getTokStr payload k = .ok s) : jGet payload k = some (.str s) := by
  unfold getTokStr at h
  cases hg : jGet payload k with
  | none => rw [hg] at h; exact Except.noConfusion h
  | some v =>
    cases v with
    | str s2 =>
      rw [hg] at h
      injection h with h2
      subst h2
      rfl
    | null => rw [hg] at h; exact Except.noConfusion h
    | bool b => rw [hg] at h; exact Except.noConfusion h
    | num n => rw [hg] at h; exact Except.noConfusion h
    | obj kvs => rw [hg] at h; exact Except.noConfusion h

theorem readTokenData_ok_fields (payload : JVal) (td : TokenData)
    (h : readTokenData payload = .ok td) :
    jGet payload "id_token" = some (.str td.id_token) ∧
    jGet payload "access_token" = some (.str td.access_token) ∧
    jGet payload "refresh_token" = some (.str td.refresh_token) := by
  unfold readTokenData at h
  cases h1 : getTokStr payload "id_token" with
  | error e => rw [h1] at h; exact Except.noConfusion h
  | ok idt =>
    rw [h1] at h
    cases h2 : getTokStr payload "access_token" with
    | error e => rw [h2] at h; exact Except.noConfusion h
    | ok acc =>
      rw [h2] at h
      cases h3 : getTokStr payload "refresh_token" with
      | error e => rw [h3] at h; exact Except.noConfusion h
      | ok rft =>
        rw [h3] at h
        injection h with h4
        subst h4
        exact ⟨getTokStr_ok _ _ _ h1, getTokStr_ok _ _ _ h2, getTokStr_ok _ _ _ h3⟩

theorem exchange_error_of_readTokenData_error (srv : ServerState) (code : String)
    (w : World) (fs : Option JVal) (payload : JVal) (e : String)
    (hw : w.codeResp = some payload) (h : readTokenData payload = .error e) :
    (_exchange_code_for_api_key srv code w fs).result = .error e := by
  simp only [_exchange_code_for_api_key, hw, h]

/-- C4, amended: the authorization-code exchange fails whenever any of
the three tokens (id, access, refresh) is absent from the token-endpoint
response, or whenever the *id* or *access* token does not parse as three
dot-separated segments.  (The refresh token's segment structure is never
checked -- see the counterexample.) -/
theorem C4_missing_or_malformed_token_fails (srv : ServerState) (code : String)
    (w : World) (fs : Option JVal) (payload : JVal)
    (hw : w.codeResp = some payload)
    (h : jGet payload "id_token" = none ∨ jGet payload "access_token" = none ∨
         jGet payload "refresh_token" = none ∨
         (∃ s, jGet payload "id_token" = some (.str s) ∧ (pySplitDot s).length ≠ 3) ∨
         (∃ s, jGet payload "access_token" = some (.str s) ∧ (pySplitDot s).length ≠ 3)) :
    ∃ e, (_exchange_code_for_api_key srv code w fs).result = .error e := by
  cases hrd : readTokenData payload with
  | error e => exact ⟨e, exchange_error_of_readTokenData_error srv code w fs payload e hw hrd⟩
  | ok td =>
    obtain ⟨hidv, haccv, hrefv⟩ := readTokenData_ok_fields payload td hrd
    rcases h with h1 | h1 | h1 | ⟨s, h1, h2⟩ | ⟨s, h1, h2⟩
    · rw [h1] at hidv; exact Option.noConfusion hidv
    · rw [h1] at haccv; exact Option.noConfusion haccv
    · rw [h1] at hrefv; exact Option.noConfusion hrefv
    · have hs : td.id_token = s := by
        rw [h1] at hidv
        exact (JVal.str.inj (Option.some.inj hidv)).symm
      refine ⟨"Invalid ID token", ?_⟩
      simp only [_exchange_code_for_api_key, hw, hrd]
      rw [hs, if_pos h2]
    · have hs : td.access_token = s := by
        rw [h1] at haccv
        exact (JVal.str.inj (Option.some.inj haccv)).symm
      by_cases hsi : (pySplitDot td.id_token).length = 3
      · refine ⟨"Invalid access token", ?_⟩
        simp only [_exchange_code_for_api_key, hw, hrd]
        rw [if_neg (fun hc => hc hsi), hs, if_pos h2]
      · refine ⟨"Invalid ID token", ?_⟩
        simp only [_exchange_code_for_api_key, hw, hrd]
        rw [if_pos hsi]

/-- The valid world of `cWorld` except that the refresh token returned by
the code exchange is the opaque single-segment string "opaque". -/
def c4World : World :=
  { cWorld with
    codeResp := some (.obj [("id_token", .str cIdToken),
                            ("access_token", .str cAccessToken),
                            ("refresh_token", .str "opaque")]) }

/-- C4, counterexample: the claim says the segment check "applies to each
of the three tokens", but a refresh token that does not parse as three
dot-separated segments is accepted: with `c4World` the exchange succeeds
and the returned bundle carries the malformed refresh token verbatim. -/
theorem C4_counterexample :
    (pySplitDot "opaque").length ≠ 3 ∧
    ((_exchange_code_for_api_key cSrv "authcode" c4World none).result.map
      (fun p => p.1.token_data.refresh_token)) = Except.ok "opaque" :=
  ⟨by decide, rfl⟩

/-- A world whose code-exchange response lacks the `id_token` key. -/
def c4MissingWorld : World :=
  { c4World with
    codeResp := some (.obj [("access_token", .str cAccessToken),
                            ("refresh_token", .str "opaque")]) }

theorem C4_missing_or_malformed_token_fails_witness :
    c4MissingWorld.codeResp = some (.obj [("access_token", .str cAccessToken),
                                          ("refresh_token", .str "opaque")]) ∧
    jGet (.obj [("access_token", .str cAccessToken),
                ("refresh_token", .str "opaque")]) "id_token" = none ∧
    ∃ e, (_exchange_code_for_api_key cSrv "authcode" c4MissingWorld none).result = .error e :=
  ⟨rfl, rfl,
    C4_missing_or_malformed_token_fails cSrv "authcode" c4MissingWorld none
      (.obj [("access_token", .str cAccessToken), ("refresh_token", .str "opaque")])
      rfl (Or.inl rfl)⟩

/-! ## Claim C5 -/

/-- C5: for every successful exchange, the success URL is exactly the
`/success` URL carrying the id token, the computed `needs_setup`, the
organization id, project id, plan type and platform URL as query
parameters, where the claims are those decoded from the returned bundle's
own tokens; `needs_setup` is `(NOT completed_platform_onboarding) AND
is_org_owner` over the id-token's namespaced claims; and in particular
`is_org_owner = true` with `completed_platform_onboarding = false` puts
`needs_setup=true` on the URL. -/
theorem C5_success_url_and_needs_setup (srv : ServerState) (code : String) (w : World)
    (fs : Option JVal) (bundle : AuthBundle) (url : String)
    (h : (_exchange_code_for_api_key srv code w fs).result = .ok (bundle, url)) :
    url = successUrlOf bundle.token_data.id_token
      (authClaimsOfToken bundle.token_data.id_token)
      (authClaimsOfToken bundle.token_data.access_token) srv.issuer ∧
    needsSetupOf (authClaimsOfToken bundle.token_data.id_token) =
      (!pyEqTrue (jGet (authClaimsOfToken bundle.token_data.id_token)
          "completed_platform_onboarding") &&
        pyEqTrue (jGet (authClaimsOfToken bundle.token_data.id_token) "is_org_owner")) ∧
    ("needs_setup", if needsSetupOf (authClaimsOfToken bundle.token_data.id_token)
        then "true" else "false") ∈
      successQueryOf bundle.token_data.id_token
        (authClaimsOfToken bundle.token_data.id_token)
        (authClaimsOfToken bundle.token_data.access_token) srv.issuer ∧
    (pyEqTrue (jGet (authClaimsOfToken bundle.token_data.id_token) "is_org_owner") = true →
     pyEqTrue (jGet (authClaimsOfToken bundle.token_data.id_token)
        "completed_platform_onboarding") = false →
     ("needs_setup", "true") ∈ successQueryOf bundle.token_data.id_token
        (authClaimsOfToken bundle.token_data.id_token)
        (authClaimsOfToken bundle.token_data.access_token) srv.issuer) := by
  have hmain : url = successUrlOf bundle.token_data.id_token
      (authClaimsOfToken bundle.token_data.id_token)
      (authClaimsOfToken bundle.token_data.access_token) srv.issuer := by
    unfold _exchange_code_for_api_key at h
    dsimp only at h
    cases hw : w.codeResp with
    | none => rw [hw] at h; exact Except.noConfusion h
    | some payload =>
      rw [hw] at h
      dsimp only at h
      cases hrd : readTokenData payload with
      | error e => rw [hrd] at h; exact Except.noConfusion h
      | ok td =>
        rw [hrd] at h
        dsimp only at h
        by_cases hif1 : (pySplitDot td.id_token).length ≠ 3
        · rw [if_pos hif1] at h; exact Except.noConfusion h
        · rw [if_neg hif1] at h
          by_cases hif2 : (pySplitDot td.access_token).length ≠ 3
          · rw [if_pos hif2] at h; exact Except.noConfusion h
          · rw [if_neg hif2] at h
            by_cases hif3 : (!optTruthy (jGet (authClaimsOfToken td.id_token)
                "organization_id")) = true
            · rw [if_pos hif3] at h; exact Except.noConfusion h
            · rw [if_neg hif3] at h
              by_cases hif4 : (!optTruthy (jGet (authClaimsOfToken td.id_token)
                  "project_id")) = true
              · rw [if_pos hif4] at h; exact Except.noConfusion h
              · rw [if_neg hif4] at h
                cases hw2 : w.exchangeResp with
                | none => rw [hw2] at h; exact Except.noConfusion h
                | some p2 =>
                  rw [hw2] at h
                  dsimp only at h
                  cases hts : getTokStr p2 "access_token" with
                  | error e => rw [hts] at h; exact Except.noConfusion h
                  | ok apiKey =>
                    rw [hts] at h
                    dsimp only at h
                    simp only [Except.ok.injEq, Prod.mk.injEq] at h
                    obtain ⟨hb, hu⟩ := h
                    rw [← hu, ← hb]
  refine ⟨hmain, rfl, ?_, ?_⟩
  · simp [successQueryOf]
  · intro h1 h2
    have hn : needsSetupOf (authClaimsOfToken bundle.token_data.id_token) = true := by
      unfold needsSetupOf
      rw [h1, h2]
      rfl
    have := List.mem_cons_self
      ("needs_setup", if needsSetupOf (authClaimsOfToken bundle.token_data.id_token)
        then "true" else "false")
      [("org_id", pyStr (jGet (authClaimsOfToken bundle.token_data.id_token)
          "organization_id")),
       ("project_id", pyStr (jGet (authClaimsOfToken bundle.token_data.id_token)
          "project_id")),
       ("plan_type", pyStr (jGet (authClaimsOfToken bundle.token_data.access_token)
          "chatgpt_plan_type")),
       ("platform_url", platformUrlOf srv.issuer)]
    simp [successQueryOf, hn]

/-- The outcome of the exchange in `cWorld` (onboarding complete). -/
def c5res : ExchangeResult := _exchange_code_for_api_key cSrv "authcode" cWorld none

def c5bundle : AuthBundle :=
  match c5res.result with
  | .ok p => p.1
  | .error _ => ⟨"", ⟨"", "", ""⟩, ""⟩

def c5url : String :=
  match c5res.result with
  | .ok p => p.2
  | .error _ => ""

/-- `cWorld` with the scenario-B id token: `is_org_owner = true` and
`completed_platform_onboarding = false`. -/
def c5bWorld : World :=
  { cWorld with
    codeResp := some (.obj [("id_token", .str cIdTokenB),
                            ("access_token", .str cAccessToken),
                            ("refresh_token", .str "rt-1")]) }

def c5bres : ExchangeResult := _exchange_code_for_api_key cSrv "authcode" c5bWorld none

def c5bBundle : AuthBundle :=
  match c5bres.result with
  | .ok p => p.1
  | .error _ => ⟨"", ⟨"", "", ""⟩, ""⟩

def c5bUrl : String :=
  match c5bres.result with
  | .ok p => p.2
  | .error _ => ""

theorem C5_success_url_and_needs_setup_witness :
    (_exchange_code_for_api_key cSrv "authcode" cWorld none).result = .ok (c5bundle, c5url) ∧
    c5url = successUrlOf c5bundle.token_data.id_token
      (authClaimsOfToken c5bundle.token_data.id_token)
      (authClaimsOfToken c5bundle.token_data.access_token) cSrv.issuer ∧
    (_exchange_code_for_api_key cSrv "authcode" c5bWorld none).result = .ok (c5bBundle, c5bUrl) ∧
    pyEqTrue (jGet (authClaimsOfToken c5bBundle.token_data.id_token) "is_org_owner") = true ∧
    pyEqTrue (jGet (authClaimsOfToken c5bBundle.token_data.id_token)
      "completed_platform_onboarding") = false ∧
    ("needs_setup", "true") ∈ successQueryOf c5bBundle.token_data.id_token
      (authClaimsOfToken c5bBundle.token_data.id_token)
      (authClaimsOfToken c5bBundle.token_data.access_token) cSrv.issuer :=
  ⟨rfl,
   (C5_success_url_and_needs_setup cSrv "authcode" cWorld none c5bundle c5url rfl).1,
   rfl, rfl, rfl,
   (C5_success_url_and_needs_setup cSrv "authcode" c5bWorld none c5bBundle c5bUrl
     rfl).2.2.2 rfl rfl⟩

/-! ## Claim C9 -/

/-- Effects produced by the credit-redemption side flow. -/
def isSideFlowEffect : Effect → Bool
  | .refreshRequest => true
  | .redeemRequest => true
  | .updateAuthFile => true
  | _ => false

theorem redeemUpdateAuthFile_effects (fs : Option JVal) (nid : String) (nref : JVal)
    (iso : String) (ok : Bool) :
    (redeemUpdateAuthFile fs nid nref iso ok).2 = [] ∨
    (redeemUpdateAuthFile fs nid nref iso ok).2 = [.updateAuthFile] := by
  unfold redeemUpdateAuthFile
  repeat' split
  all_goals simp

theorem redeemGate_effects (a : JVal) (fs : Option JVal) (effs : List Effect) :
    (redeemGate a fs effs).effects = effs ∨
    (redeemGate a fs effs).effects = effs ++ [.redeemRequest] := by
  simp only [redeemGate]
  split
  · exact Or.inl rfl
  · exact Or.inr rfl

theorem redeemPhase2_effects (idToken? : Option String) (idClaims : JVal) (w : World)
    (fs : Option JVal) (effs : List Effect) :
    (redeemPhase2 idToken? idClaims w fs effs).effects = effs ∨
    (redeemPhase2 idToken? idClaims w fs effs).effects = effs ++ [.redeemRequest] := by
  simp only [redeemPhase2]
  repeat' split
  all_goals first | exact Or.inl rfl | apply redeemGate_effects

theorem maybe_redeem_no_write (issuer clientId : String) (idToken? : Option String)
    (refreshToken : String) (w : World) (fs : Option JVal) :
    Effect.writeAuthFile ∉ (maybe_redeem_credits issuer clientId idToken? refreshToken w fs).effects := by
  have hphase : ∀ (it : Option String) (c : JVal) (fs2 : Option JVal) (effs : List Effect),
      Effect.writeAuthFile ∉ effs →
      Effect.writeAuthFile ∉ (redeemPhase2 it c w fs2 effs).effects := by
    intro it c fs2 effs he
    rcases redeemPhase2_effects it c w fs2 effs with h | h <;> rw [h]
    · exact he
    · simp [List.mem_append, he]
  have hupd : ∀ (fsx : Option JVal) (a : String) (b : JVal),
      Effect.writeAuthFile ∉
        [Effect.refreshRequest] ++ (redeemUpdateAuthFile fsx a b w.nowIsoRefresh w.writeOk).2 := by
    intro fsx a b
    rcases redeemUpdateAuthFile_effects fsx a b w.nowIsoRefresh w.writeOk with h | h <;>
      simp [h]
  unfold maybe_redeem_credits
  dsimp only
  split
  · simp
  · split
    · split
      · simp
      · split
        · simp
        · split
          · simp
          · split
            · exact hupd _ _ _
            · split
              · exact hupd _ _ _
              · exact hphase _ _ _ _ (hupd _ _ _)
    · exact hphase _ _ _ _ (by simp)

theorem exchange_no_write (srv : ServerState) (code : String) (w : World)
    (fs : Option JVal) :
    Effect.writeAuthFile ∉ (_exchange_code_for_api_key srv code w fs).effects := by
  unfold _exchange_code_for_api_key
  dsimp only
  split
  · simp
  · split
    · simp
    · split
      · simp
      · split
        · simp
        · split
          · simp
          · split
            · simp
            · split
              · simp
              · split
                · simp
                · intro hmem
                  rcases List.mem_append.mp hmem with h | h
                  · rcases List.mem_append.mp h with h2 | h2 <;> simp at h2
                  · exact maybe_redeem_no_write srv.issuer srv.client_id _ _ w fs h

/-- C9, amended, part of the statement below: the trace shape of one
handled request. -/
theorem do_GET_effects_shape (srv : ServerState) (path : String)
    (params : List (String × String)) (w : World) (fs : Option JVal) :
    (do_GET srv path params w fs).effects = [] ∨
    (do_GET srv path params w fs).effects =
      (_exchange_code_for_api_key srv ((parse_qs_get params "code").getD "") w fs).effects ∨
    (do_GET srv path params w fs).effects =
      (_exchange_code_for_api_key srv ((parse_qs_get params "code").getD "") w fs).effects
        ++ [.writeAuthFile] := by
  unfold do_GET
  dsimp only
  split
  · exact Or.inl rfl
  · split
    · split
      · exact Or.inl rfl
      · split
        · exact Or.inl rfl
        · split
          · exact Or.inr (Or.inl rfl)
          · split
            · exact Or.inr (Or.inr rfl)
            · exact Or.inr (Or.inl rfl)
    · exact Or.inl rfl

/-- C9, corrected: (ordering) in every handled request, any persistence
of the credential bundle (`_write_auth_file`) happens strictly *after*
every action of the credit-redemption side flow — the side flow runs
before persistence, not after it; and (isolation) the outcome of the side
flow — whatever its network oracle returns, including failures — never
changes the handler's response, the server state (hence the recorded exit
code), or the shutdown decision. -/
theorem C9_side_flow_before_write_and_isolated (srv : ServerState) (path : String)
    (params : List (String × String)) (w : World) (fs : Option JVal) :
    (∀ i j e, (do_GET srv path params w fs).effects.get? i = some e →
      isSideFlowEffect e = true →
      (do_GET srv path params w fs).effects.get? j = some .writeAuthFile → i < j) ∧
    (∀ r d,
      (do_GET srv path params { w with refreshResp := r, redeemResp := d } fs).response =
        (do_GET srv path params w fs).response ∧
      (do_GET srv path params { w with refreshResp := r, redeemResp := d } fs).srv =
        (do_GET srv path params w fs).srv ∧
      (do_GET srv path params { w with refreshResp := r, redeemResp := d } fs).shutdown =
        (do_GET srv path params w fs).shutdown) := by
  constructor
  · intro i j e hi hse hj
    rcases do_GET_effects_shape srv path params w fs with hsh | hsh | hsh
    · rw [hsh] at hj
      simp at hj
    · rw [hsh] at hj
      exact absurd (List.get?_mem hj) (exchange_no_write srv _ w fs)
    · set L := (_exchange_code_for_api_key srv ((parse_qs_get params "code").getD "")
        w fs).effects with hL
      have hjn : j = L.length := by
        by_cases hlt : j < L.length
        · rw [hsh, List.get?_append hlt] at hj
          exact absurd (List.get?_mem hj) (exchange_no_write srv _ w fs)
        · push_neg at hlt
          rw [hsh, List.get?_append_right hlt] at hj
          rcases hd : j - L.length with _ | n
          · omega
          · rw [hd] at hj
            simp at hj
      have hin : i < L.length := by
        by_cases hlt : i < L.length
        · exact hlt
        · exfalso
          push_neg at hlt
          rw [hsh, List.get?_append_right hlt] at hi
          rcases hd : i - L.length with _ | n
          · rw [hd] at hi
            simp at hi
            rw [← hi] at hse
            simp [isSideFlowEffect] at hse
          · rw [hd] at hi
            simp at hi
      omega
  · intro r d
    have hres : (_exchange_code_for_api_key srv ((parse_qs_get params "code").getD "")
        { w with refreshResp := r, redeemResp := d } fs).result =
        (_exchange_code_for_api_key srv ((parse_qs_get params "code").getD "") w fs).result := by
      unfold _exchange_code_for_api_key
      dsimp only
      cases w.codeResp with
      | none => rfl
      | some payload =>
        dsimp only
        cases readTokenData payload with
        | error e => rfl
        | ok td =>
          dsimp only
          by_cases h1 : (pySplitDot td.id_token).length ≠ 3
          · rw [if_pos h1, if_pos h1]
          · rw [if_neg h1, if_neg h1]
            by_cases h2 : (pySplitDot td.access_token).length ≠ 3
            · rw [if_pos h2, if_pos h2]
            · rw [if_neg h2, if_neg h2]
              by_cases h3 : (!optTruthy (jGet (authClaimsOfToken td.id_token)
                  "organization_id")) = true
              · rw [if_pos h3, if_pos h3]
              · rw [if_neg h3, if_neg h3]
                by_cases h4 : (!optTruthy (jGet (authClaimsOfToken td.id_token)
                    "project_id")) = true
                · rw [if_pos h4, if_pos h4]
                · rw [if_neg h4, if_neg h4]
                  cases w.exchangeResp with
                  | none => rfl
                  | some p2 =>
                    try dsimp only
                    cases getTokStr p2 "access_token" with
                    | error e => rfl
                    | ok apiKey => rfl
    unfold do_GET
    by_cases hp1 : path = "/success"
    · simp [hp1]
    · simp only [hp1, if_false]
      by_cases hp2 : path = "/auth/callback"
      · simp only [hp2, if_true]
        by_cases hst : parse_qs_get params "state" ≠ some srv.state
        · simp [hst]
        · simp only [hst, if_false]
          by_cases hcode : (!optStrTruthy (parse_qs_get params "code")) = true
          · simp [hcode]
          · simp only [hcode, if_false]
            try dsimp only
            rw [hres]
            cases (_exchange_code_for_api_key srv ((parse_qs_get params "code").getD "")
                w fs).result with
            | error e => exact ⟨rfl, rfl, rfl⟩
            | ok p =>
              rcases p with ⟨bundle, url⟩
              dsimp only [_write_auth_file]
              by_cases hw : w.writeOk = true
              · simp [hw]
              · simp only [Bool.not_eq_true] at hw
                simp [hw]
      · simp [hp2]

/-- The successful callback run of `cWorld`: its trace is two
token-endpoint requests, then the redemption request, then the
credential-file write. -/
def c9run : GetResult :=
  do_GET cSrv "/auth/callback" [("state", "st-1"), ("code", "authcode")] cWorld none

/-- C9, counterexample: the claim says the side flow runs only *after*
the bundle has been persisted.  In this concrete successful run the
redemption request sits at index 2 of the trace and the `auth.json` write
at index 3 — the side flow ran first, before any persistence. -/
theorem C9_counterexample :
    c9run.effects.get? 2 = some .redeemRequest ∧
    c9run.effects.get? 3 = some .writeAuthFile ∧
    (∀ e ∈ c9run.effects.take 3, e ≠ Effect.writeAuthFile) ∧
    (2 : Nat) < 3 :=
  ⟨rfl, rfl, by decide, by decide⟩

theorem C9_side_flow_before_write_and_isolated_witness :
    c9run.effects.get? 2 = some .redeemRequest ∧
    isSideFlowEffect .redeemRequest = true ∧
    c9run.effects.get? 3 = some .writeAuthFile ∧
    (2 : Nat) < 3 ∧
    (do_GET cSrv "/auth/callback" [("state", "st-1"), ("code", "authcode")]
        { cWorld with refreshResp := none, redeemResp := none } none).srv =
      (do_GET cSrv "/auth/callback" [("state", "st-1"), ("code", "authcode")]
        cWorld none).srv :=
  ⟨rfl, rfl, rfl,
    (C9_side_flow_before_write_and_isolated cSrv "/auth/callback"
      [("state", "st-1"), ("code", "authcode")] cWorld none).1 2 3 .redeemRequest
      rfl rfl rfl,
    ((C9_side_flow_before_write_and_isolated cSrv "/auth/callback"
      [("state", "st-1"), ("code", "authcode")] cWorld none).2 none none).2.1⟩

/-! ## Claim C10 -/

/-- One handled request sets the exit code to 0 exactly when it was
already 0 or this request persisted `auth.json` (the branch immediately
after `_write_auth_file` returns `True`). -/
theorem do_GET_exit_code_zero_iff (srv : ServerState) (path : String)
    (params : List (String × String)) (w : World) (fs : Option JVal) :
    (do_GET srv path params w fs).srv.exit_code = 0 ↔
      (srv.exit_code = 0 ∨ Effect.writeAuthFile ∈ (do_GET srv path params w fs).effects) := by
  unfold do_GET
  dsimp only
  split
  · simp
  · split
    · split
      · simp
      · split
        · simp
        · split
          · have hnw := exchange_no_write srv ((parse_qs_get params "code").getD "") w fs
            simp [hnw]
          · split
            · simp
            · have hnw := exchange_no_write srv ((parse_qs_get params "code").getD "") w fs
              simp [hnw]
    · simp

/-- C10: the server's exit code is initialized to 1 at startup; one
handled request yields exit code 0 exactly when it was already 0 or the
request just persisted `auth.json`; hence a whole run starting from a
non-zero exit code that ends with exit code 0 must have persisted
`auth.json` — every run that never persists exits non-zero. -/
theorem C10_exit_zero_requires_write :
    (∀ (home : String) (verbose : Bool) (rand : List Nat) (st : String),
      (serverInit home verbose rand st).exit_code = 1) ∧
    (∀ (srv : ServerState) (path : String) (params : List (String × String))
       (w : World) (fs : Option JVal),
      (do_GET srv path params w fs).srv.exit_code = 0 ↔
        (srv.exit_code = 0 ∨ Effect.writeAuthFile ∈ (do_GET srv path params w fs).effects)) ∧
    (∀ (srv : ServerState) (fs : Option JVal) (reqs : List Request),
      srv.exit_code ≠ 0 → (runServer srv fs reqs).1.exit_code = 0 →
      Effect.writeAuthFile ∈ (runServer srv fs reqs).2.2) := by
  refine ⟨fun home verbose rand st => rfl, do_GET_exit_code_zero_iff, ?_⟩
  intro srv fs reqs
  induction reqs generalizing srv fs with
  | nil =>
    intro h0 hrun
    exact absurd hrun h0
  | cons r rs ih =>
    intro h0 hrun
    unfold runServer at hrun ⊢
    dsimp only at hrun ⊢
    by_cases hsd : (do_GET srv r.path r.params r.world fs).shutdown = true
    · rw [if_pos hsd] at hrun ⊢
      rcases (do_GET_exit_code_zero_iff srv r.path r.params r.world fs).mp hrun with h2 | h2
      · exact absurd h2 h0
      · exact h2
    · rw [if_neg hsd] at hrun ⊢
      by_cases hz : (do_GET srv r.path r.params r.world fs).srv.exit_code = 0
      · rcases (do_GET_exit_code_zero_iff srv r.path r.params r.world fs).mp hz with h2 | h2
        · exact absurd h2 h0
        · exact List.mem_append.mpr (Or.inl h2)
      · exact List.mem_append.mpr (Or.inr (ih _ _ hz hrun))

theorem C10_exit_zero_requires_write_witness :
    (serverInit "/home/user/.codex" false [] "st-1").exit_code = 1 ∧
    cSrv.exit_code ≠ 0 ∧
    (runServer cSrv none [cCallbackReq]).1.exit_code = 0 ∧
    Effect.writeAuthFile ∈ (runServer cSrv none [cCallbackReq]).2.2 :=
  ⟨C10_exit_zero_requires_write.1 "/home/user/.codex" false [] "st-1",
   by decide, rfl,
   C10_exit_zero_requires_write.2.2 cSrv none [cCallbackReq] (by decide) rfl⟩

end CodexLogin
